import Mathlib

/-!
Shallow embedding, in Lean 4, of the climt spectral-dynamical-core adapter
(`src/climt/_components/gfs/component.py`) and its utility layer
(`src/climt/_core/util.py`), together with theorems settling the frozen
claims about this code.

Modelling conventions:
* numpy arrays carrying data are modelled either as `NDArray` (a shape plus a
  flat list of rational values) where shapes matter, or as total functions
  `Nat → … → ℚ` where only per-index values matter;
* Python's `hash` of a sampled byte buffer is an opaque parameter
  `List ℚ → Int`; `np.log` is an opaque parameter `ℚ → ℚ` (real-valued
  transcendental functions are irrelevant to every claim);
* the external Fortran kernel (`_gfs_dynamics`) is opaque: it is modelled as
  a universally quantified function from the grid buffers it was handed (by
  reference) to the post-step contents of those same buffers.  Buffers that
  are never passed to any kernel routine cannot be written by it; this is
  visible in the Python source, which passes `specific_humidity` only by
  value (copied into tracer slot 0), never by reference.
-/

namespace Climt

/-- A numpy array: its shape and its (flattened) data.  Memory order
(C versus Fortran layout) is not part of the model; `np.asfortranarray`
preserves shape and values and only changes layout. -/
structure NDArray where
  shape : List Nat
  data : List ℚ
deriving DecidableEq, Repr

/-- `np.zeros(shape)` (the `order='F'` flag only affects memory layout). -/
def np_zeros (shape : List Nat) : NDArray :=
  ⟨shape, List.replicate shape.prod 0⟩

/-- `np.asfortranarray`: changes only the memory layout, which the model
does not represent; shape and values are unchanged. -/
def np_asfortranarray (a : NDArray) : NDArray := a

/-- Whether an `Except` result is a success. -/
def exceptIsOk {ε α : Type} : Except ε α → Bool
  | .ok _ => true
  | .error _ => false

/-! ## `util.py`: `ensure_3d` -/

/-- `climt._core.util.ensure_3d(value, data_dim_if_1d)`: a 3D array is
returned unchanged; a 1D array of length `n` is broadcast to shape
`[n,1,1]`, `[1,n,1]` or `[1,1,n]` according to `data_dim_if_1d` being
`1`, `2` or `3` (`value[:, None, None]` and friends keep the same data);
any other rank, or a 1D array with a position outside `1..3`, raises
`ValueError`. -/
def ensure_3d (value : NDArray) (data_dim_if_1d : Int) : Except String NDArray :=
  if value.shape.length = 3 then
    .ok value
  else if value.shape.length = 1 then
    let n := value.shape.headI
    if data_dim_if_1d = 1 then .ok ⟨[n, 1, 1], value.data⟩
    else if data_dim_if_1d = 2 then .ok ⟨[1, n, 1], value.data⟩
    else if data_dim_if_1d = 3 then .ok ⟨[1, 1, n], value.data⟩
    else .error ("data_dim_if_1d should be an integer from 1 to 3, got " ++
      toString data_dim_if_1d)
  else
    .error ("value should be a 1D or 3D array, instead got " ++
      toString value.shape.length ++ "D")

/-! ## `util.py`: `set_prognostic_update_frequency` -/

/-- The cache the update-frequency wrapper adds to a prognostic class:
the time of the last recomputation, and the output cached then.  After
patching, both start out unset (`_last_update_time = None`; the
`_cached_output` attribute does not exist until the first computation). -/
structure ThrottleState (β : Type) where
  last_update_time : Option ℚ
  cached_output : Option β

/-- One invocation of the patched `__call__` from
`set_prognostic_update_frequency`: recompute (and refresh the cache and the
last-update time) when there is no previous update time or when the state's
time has reached the last update time plus the configured interval;
otherwise return the cached output and leave everything unchanged.  The
third component records whether the wrapped original `__call__` was invoked
on this call. -/
def throttled_call {σ β : Type} (original_call : σ → β) (update_timedelta : ℚ)
    (timeOf : σ → ℚ) (ts : ThrottleState β) (state : σ) :
    Option β × ThrottleState β × Bool :=
  match ts.last_update_time with
  | none =>
    let out := original_call state
    (some out, ⟨some (timeOf state), some out⟩, true)
  | some t =>
    if timeOf state ≥ t + update_timedelta then
      let out := original_call state
      (some out, ⟨some (timeOf state), some out⟩, true)
    else
      (ts.cached_output, ts, false)

/-- Run the throttled operation over a list of successive states, returning
the list of outputs and the number of calls that actually recomputed. -/
def throttle_run {σ β : Type} (original_call : σ → β) (update_timedelta : ℚ)
    (timeOf : σ → ℚ) : ThrottleState β → List σ → List (Option β) × Nat
  | _, [] => ([], 0)
  | ts, s :: rest =>
    let r := throttled_call original_call update_timedelta timeOf ts s
    let rec_tail := throttle_run original_call update_timedelta timeOf r.2.1 rest
    (r.1 :: rec_tail.1, (if r.2.2 then 1 else 0) + rec_tail.2)

/-! ## `util.py`: `ensure_shared_coordinates` -/

/-- A Python dictionary key: CPython kwargs dictionaries always carry
string keys, but subscription with any value is legal syntax. -/
inductive PyKey where
  | int : Int → PyKey
  | str : String → PyKey
deriving DecidableEq

/-- The Python exceptions relevant to `ensure_shared_coordinates`. -/
inductive PyErr where
  | keyError
  | attributeError
deriving DecidableEq

/-- A labeled array as far as `ensure_shared_coordinates` needs it:
dimension names and, per dimension name, coordinate values. -/
structure DataArr where
  dims : List String
  coords : String → List ℚ

/-- Python dict subscription `d[k]`: the value at the first matching key,
`KeyError` signalled by `none`. -/
def dictGet {α : Type} (d : List (PyKey × α)) (k : PyKey) : Option α :=
  (d.find? (fun e => e.fst = k)).map Prod.snd

/-- `climt._core.util.ensure_shared_coordinates(**args)`.  The body runs
`reference_dims = args[0].dims`: `args` is the kwargs dictionary, so this
subscripts it with the integer key `0`.  A kwargs dictionary has only
string keys, so this raises `KeyError`.  Were a key `0` somehow present,
the following `for value in args` would iterate over the dictionary KEYS
(strings), and `value.dims` on a string would raise `AttributeError`. -/
def ensure_shared_coordinates (args : List (PyKey × DataArr)) : Except PyErr Unit :=
  match dictGet args (PyKey.int 0) with
  | none => .error .keyError
  | some _reference =>
    match args with
    | [] => .ok ()
    | _ :: _ => .error .attributeError

/-! ## `component.py`: declared quantity tables -/

/-- `GfsDynamicalCore._climt_inputs`: quantity name → unit, exactly as in
the source. -/
def climt_inputs : List (String × String) :=
  [("eastward_wind", "m s^-1"),
   ("northward_wind", "m s^-1"),
   ("air_temperature", "degK"),
   ("surface_air_pressure", "Pa"),
   ("air_pressure", "Pa"),
   ("air_pressure_on_interface_levels", "Pa"),
   ("specific_humidity", "g kg^-1"),
   ("surface_geopotential", "m^2 s^-2"),
   ("atmosphere_relative_vorticity", "s^-1"),
   ("divergence_of_wind", "s^-1"),
   ("mole_fraction_of_ozone_in_air", "dimensionless"),
   ("mass_content_of_cloud_ice_in_atmosphere_layer", "g m^-2"),
   ("mass_content_of_cloud_liquid_water_in_atmosphere_layer", "g m^-2"),
   ("gfs_tracers", "dimensionless")]

/-- `GfsDynamicalCore._climt_outputs`, exactly as in the source. -/
def climt_outputs : List (String × String) :=
  [("eastward_wind", "m s^-1"),
   ("northward_wind", "m s^-1"),
   ("air_temperature", "degK"),
   ("air_pressure", "Pa"),
   ("air_pressure_on_interface_levels", "Pa"),
   ("surface_air_pressure", "Pa"),
   ("specific_humidity", "g kg^-1"),
   ("surface_geopotential", "m^2 s^-2"),
   ("atmosphere_relative_vorticity", "s^-1"),
   ("divergence_of_wind", "s^-1"),
   ("mole_fraction_of_ozone_in_air", "dimensionless"),
   ("mass_content_of_cloud_ice_in_atmosphere_layer", "g m^-2"),
   ("mass_content_of_cloud_liquid_water_in_atmosphere_layer", "g m^-2")]

/-- The declared input quantity names. -/
def inputKeys : List String := climt_inputs.map Prod.fst

/-- The declared output quantity names. -/
def outputKeys : List String := climt_outputs.map Prod.fst

/-! ## `component.py`: derived values in `__init__` -/

/-- Python's `int(q)` on a real number: truncation toward zero.  (The source
computes `num_lons/3 - 2` with true division; the model uses the exact
rational value.) -/
def py_int (q : ℚ) : Int :=
  if 0 ≤ q then ⌊q⌋ else -⌊-q⌋

/-- The sanity checks (`assert` statements) of `GfsDynamicalCore.__init__`. -/
def sanity_checks (number_of_tracers number_of_levels number_of_latitudes
    number_of_longitudes number_of_damped_levels : Int) : Bool :=
  decide (number_of_tracers ≥ 0) && decide (number_of_levels > 0) &&
  decide (number_of_latitudes > 0) && decide (number_of_longitudes > 0) &&
  decide (number_of_damped_levels ≥ 0)

/-- `__init__` raises `NotImplementedError` unless the level count is 28. -/
def levels_supported (number_of_levels : Int) : Bool :=
  decide (number_of_levels = 28)

/-- `self._truncation = int(self._num_lons/3 - 2)` (true division under
`from __future__ import division`, then `int` truncation toward zero). -/
def truncation (num_lons : Int) : Int :=
  py_int ((num_lons : ℚ) / 3 - 2)

/-- `self._spectral_dim = int((truncation + 1)*(truncation + 2)/2)`. -/
def spectral_dim (num_lons : Int) : Int :=
  py_int (((truncation num_lons : ℚ) + 1) * ((truncation num_lons : ℚ) + 2) / 2)

/-- `self._num_tracers = number_of_tracers + 4`. -/
def num_tracers (number_of_tracers : Int) : Int :=
  number_of_tracers + 4

/-! ## `component.py`: virtual-temperature transform -/

/-- `self._fvirt = (1 - Rd/Rv)/(Rd/Rv)`. -/
def fvirt_of (Rd Rv : ℚ) : ℚ :=
  (1 - Rd / Rv) / (Rd / Rv)

/-- The forward transform of `__call__`:
`t_virt = air_temperature * (1 + fvirt * specific_humidity)`. -/
def t_virt_of (fvirt T q : ℚ) : ℚ :=
  T * (1 + fvirt * q)

/-- The inverse transform of `__call__`:
`air_temperature = t_virt / (1 + fvirt * specific_humidity)`. -/
def t_from_virt (fvirt tv q : ℚ) : ℚ :=
  tv / (1 + fvirt * q)

/-! ## `component.py`: `return_tendency_arrays_or_zeros` -/

/-- The per-quantity rule of `return_tendency_arrays_or_zeros`: a quantity
found in the tendency mapping yields that entry (as a Fortran-ordered
array); otherwise one found in the state mapping yields zeros of that
entry's shape.  (The final arm is unreachable whenever the rule is applied,
since the assembler raises first.) -/
def tendency_or_zeros (state tendencies : List (String × NDArray))
    (quantity : String) : NDArray :=
  match tendencies.lookup quantity with
  | some arr => np_asfortranarray arr
  | none =>
    match state.lookup quantity with
    | some arr => np_zeros arr.shape
    | none => ⟨[], []⟩

/-- Whether a quantity can be assembled at all. -/
def tendency_available (state tendencies : List (String × NDArray))
    (quantity : String) : Bool :=
  (tendencies.lookup quantity).isSome || (state.lookup quantity).isSome

/-- `climt._components.gfs.component.return_tendency_arrays_or_zeros`:
walk the requested quantity list in order; for each name take the tendency
entry if present, else zeros shaped like the state entry, and raise
`IndexError` naming the quantity when both are absent (aborting the whole
call, so no arrays are returned). -/
def return_tendency_arrays_or_zeros (quantity_list : List String)
    (state tendencies : List (String × NDArray)) :
    Except String (List NDArray) :=
  match quantity_list with
  | [] => .ok []
  | quantity :: rest =>
    match tendencies.lookup quantity with
    | some arr =>
      (return_tendency_arrays_or_zeros rest state tendencies).map
        (np_asfortranarray arr :: ·)
    | none =>
      match state.lookup quantity with
      | some arr =>
        (return_tendency_arrays_or_zeros rest state tendencies).map
          (np_zeros arr.shape :: ·)
      | none =>
        .error (quantity ++ " not found in input state or tendencies")

/-! ## `component.py`: state signature (change detector) -/

/-- A 3D (lon, lat, level) grid field. -/
def Arr3 : Type := Nat → Nat → Nat → ℚ

/-- A 2D (lon, lat) surface field. -/
def Arr2 : Type := Nat → Nat → ℚ

/-- The (lon, lat, level, tracer) bundle array. -/
def Arr4 : Type := Nat → Nat → Nat → Nat → ℚ

/-- The five stored hash values (`_hash_u`, `_hash_v`, `_hash_temp`,
`_hash_press`, `_hash_surf_press`). -/
structure StateSig where
  hash_u : Int
  hash_v : Int
  hash_temp : Int
  hash_press : Int
  hash_surf_press : Int
deriving DecidableEq, Repr

/-- `GfsDynamicalCore.calculate_state_signature`: sample each tracked field
at the index triples fixed at construction (`_random_slice_x/y/z`, here the
zipped list `samples`), and hash each sampled buffer.  The surface-pressure
sample uses the horizontal projection of the same triples.  `hashFn` stands
for Python's `hash` of the sampled bytes. -/
def calculate_state_signature (hashFn : List ℚ → Int)
    (samples : List (Nat × Nat × Nat))
    (u v temp press : Arr3) (ps : Arr2) : StateSig :=
  { hash_u := hashFn (samples.map fun s => u s.1 s.2.1 s.2.2)
    hash_v := hashFn (samples.map fun s => v s.1 s.2.1 s.2.2)
    hash_temp := hashFn (samples.map fun s => temp s.1 s.2.1 s.2.2)
    hash_press := hashFn (samples.map fun s => press s.1 s.2.1 s.2.2)
    hash_surf_press := hashFn (samples.map fun s => ps s.1 s.2.1) }

/-- `GfsDynamicalCore.state_is_modified_externally`: recompute the five
sample hashes from the given arrays and compare with the stored ones; on
any mismatch overwrite all five stored hashes with the fresh values and
return `True`, else return `False` leaving the stored hashes unchanged.
The result is the returned flag paired with the stored signature after the
call. -/
def state_is_modified_externally (hashFn : List ℚ → Int)
    (samples : List (Nat × Nat × Nat)) (stored : StateSig)
    (u v temp press : Arr3) (ps : Arr2) : Bool × StateSig :=
  let fresh := calculate_state_signature hashFn samples u v temp press ps
  if fresh.hash_u ≠ stored.hash_u ∨ fresh.hash_v ≠ stored.hash_v ∨
      fresh.hash_press ≠ stored.hash_press ∨
      fresh.hash_surf_press ≠ stored.hash_surf_press ∨
      fresh.hash_temp ≠ stored.hash_temp then
    (true, fresh)
  else
    (false, stored)

/-- `GfsDynamicalCore.store_current_state_signature`: unconditionally
overwrite the five stored hashes with the ones computed from the given
arrays. -/
def store_current_state_signature (hashFn : List ℚ → Int)
    (samples : List (Nat × Nat × Nat))
    (u v temp press : Arr3) (ps : Arr2) : StateSig :=
  calculate_state_signature hashFn samples u v temp press ps

/-! ## `component.py`: one step of `GfsDynamicalCore.__call__` -/

/-- The grid-space arrays extracted from the input state
(`get_numpy_arrays_from_state('_climt_inputs', state)`). -/
structure StepInput where
  eastward_wind : Arr3
  northward_wind : Arr3
  air_temperature : Arr3
  surface_air_pressure : Arr2
  air_pressure : Arr3
  air_pressure_on_interface_levels : Arr3
  specific_humidity : Arr3
  surface_geopotential : Arr2
  atmosphere_relative_vorticity : Arr3
  divergence_of_wind : Arr3
  mole_fraction_of_ozone_in_air : Arr3
  mass_content_of_cloud_ice : Arr3
  mass_content_of_cloud_liquid_water : Arr3
  gfs_tracers : Arr4

/-- The grid buffers the adapter hands to the kernel by reference
(`assign_grid_arrays`, `assign_pressure_arrays`, `set_topography`).  These,
and only these, can be overwritten in place by the kernel's
`take_one_step` / `convert_to_grid` / `calculate_pressure`.  In particular
the `specific_humidity` array is NOT among them: only its values, copied
into tracer slot 0, reach the kernel. -/
structure KernelGridRefs where
  u : Arr3
  v : Arr3
  t_virt : Arr3
  lnsp : Arr2
  tracers : Arr4
  vorticity : Arr3
  divergence : Arr3
  ps : Arr2
  press : Arr3
  press_int : Arr3
  topo : Arr2

/-- The tendency buffers handed to `assign_tendencies`. -/
structure KernelTendencies where
  u_tend : Arr3
  v_tend : Arr3
  virtual_temp_tend : Arr3
  lnps_tend : Arr2
  tracer_tend : Arr4

/-- The in-place slot assignments
`gfs_tracers[:, :, :, 0] = specific_humidity`, `[...,1] = ozone`,
`[...,2] = cloud liquid water`, `[...,3] = cloud ice`; slots `≥ 4` keep
their previous contents. -/
def assemble_tracers (tracers : Arr4) (q ozone liquid ice : Arr3) : Arr4 :=
  fun i j k n =>
    if n = 0 then q i j k
    else if n = 1 then ozone i j k
    else if n = 2 then liquid i j k
    else if n = 3 then ice i j k
    else tracers i j k n

/-- The grid buffers as pushed to the kernel in `__call__` (lines 288-314):
winds, virtual temperature, log surface pressure, the assembled tracer
bundle, vorticity, divergence, the pressure fields and the topography.
`plog` stands for `np.log`. -/
def gfs_kernel_refs (fvirt : ℚ) (plog : ℚ → ℚ) (inp : StepInput) :
    KernelGridRefs :=
  { u := inp.eastward_wind
    v := inp.northward_wind
    t_virt := fun i j k => t_virt_of fvirt (inp.air_temperature i j k)
      (inp.specific_humidity i j k)
    lnsp := fun i j => plog (inp.surface_air_pressure i j)
    tracers := assemble_tracers inp.gfs_tracers inp.specific_humidity
      inp.mole_fraction_of_ozone_in_air inp.mass_content_of_cloud_liquid_water
      inp.mass_content_of_cloud_ice
    vorticity := inp.atmosphere_relative_vorticity
    divergence := inp.divergence_of_wind
    ps := inp.surface_air_pressure
    press := inp.air_pressure
    press_int := inp.air_pressure_on_interface_levels
    topo := inp.surface_geopotential }

/-- The transformed tendencies pushed by `assign_tendencies` (lines
329-338): `virtual_temp_tend = temp_tend*(1 + fvirt*q) + fvirt*t_virt*q_tend`
with the input-state humidity `q`, and `lnps_tend = (1/ps)*ps_tend`. -/
def gfs_pushed_tendencies (fvirt : ℚ) (inp : StepInput)
    (temp_tend q_tend u_tend v_tend : Arr3) (ps_tend : Arr2)
    (tracer_tend : Arr4) : KernelTendencies :=
  { u_tend := u_tend
    v_tend := v_tend
    virtual_temp_tend := fun i j k =>
      temp_tend i j k * (1 + fvirt * inp.specific_humidity i j k) +
        fvirt * t_virt_of fvirt (inp.air_temperature i j k)
          (inp.specific_humidity i j k) * q_tend i j k
    lnps_tend := fun i j => (1 / inp.surface_air_pressure i j) * ps_tend i j
    tracer_tend := tracer_tend }

/-- The opaque kernel: given the referenced grid buffers, the pushed
tendencies and whether `update_spectral_arrays` was called before
`take_one_step`, it yields the post-step contents of every referenced
buffer (written back in place by `convert_to_grid`/`calculate_pressure`). -/
def Kernel : Type :=
  KernelGridRefs → KernelTendencies → Bool → KernelGridRefs

/-- What one step returns and stores: the resynchronization decision, the
signature stored at the end of the step, and the contents copied into the
declared output quantities. -/
structure StepOutput where
  did_resync : Bool
  sig_after_check : StateSig
  new_sig : StateSig
  out_eastward_wind : Arr3
  out_northward_wind : Arr3
  out_air_temperature : Arr3
  out_air_pressure : Arr3
  out_air_pressure_on_interface_levels : Arr3
  out_surface_air_pressure : Arr2
  out_specific_humidity : Arr3
  out_surface_geopotential : Arr2
  out_atmosphere_relative_vorticity : Arr3
  out_divergence_of_wind : Arr3
  out_mole_fraction_of_ozone_in_air : Arr3
  out_mass_content_of_cloud_ice : Arr3
  out_mass_content_of_cloud_liquid_water : Arr3

/-- The kernel writeback a step observes: the opaque kernel applied to the
pushed buffers, tendencies and resynchronization flag. -/
def gfs_writeback (fvirt : ℚ) (plog : ℚ → ℚ) (hashFn : List ℚ → Int)
    (samples : List (Nat × Nat × Nat)) (kernel : Kernel) (stored : StateSig)
    (inp : StepInput) (tends : KernelTendencies) : KernelGridRefs :=
  kernel (gfs_kernel_refs fvirt plog inp) tends
    (state_is_modified_externally hashFn samples stored inp.eastward_wind
      inp.northward_wind inp.air_temperature inp.air_pressure
      inp.surface_air_pressure).1

/-- One step of `GfsDynamicalCore.__call__`, with the tendency arrays for
(temperature, humidity, winds, surface pressure, tracers) given directly
(step 6's contained physics is out of scope; `return_tendency_arrays_or_zeros`
is modelled separately).  Sequencing follows the source: signature check,
forward transforms, tracer assembly, pushes, tendency transform and push,
conditional `update_spectral_arrays`, `take_one_step`/`convert_to_grid`/
`calculate_pressure` (the kernel writeback), inverse temperature transform
dividing by `raw_input_arrays['specific_humidity']` (the input-state
humidity buffer, which no kernel routine references), signature store from
the post-step arrays, and the output copy. -/
def gfs_call (fvirt : ℚ) (plog : ℚ → ℚ) (hashFn : List ℚ → Int)
    (samples : List (Nat × Nat × Nat)) (kernel : Kernel) (stored : StateSig)
    (inp : StepInput) (temp_tend q_tend u_tend v_tend : Arr3)
    (ps_tend : Arr2) (tracer_tend : Arr4) : StepOutput :=
  let check := state_is_modified_externally hashFn samples stored
    inp.eastward_wind inp.northward_wind inp.air_temperature
    inp.air_pressure inp.surface_air_pressure
  let tends := gfs_pushed_tendencies fvirt inp temp_tend q_tend u_tend
    v_tend ps_tend tracer_tend
  let wb := gfs_writeback fvirt plog hashFn samples kernel stored inp tends
  let out_temp : Arr3 := fun i j k =>
    t_from_virt fvirt (wb.t_virt i j k) (inp.specific_humidity i j k)
  { did_resync := check.1
    sig_after_check := check.2
    new_sig := store_current_state_signature hashFn samples wb.u wb.v
      out_temp wb.press wb.ps
    out_eastward_wind := wb.u
    out_northward_wind := wb.v
    out_air_temperature := out_temp
    out_air_pressure := wb.press
    out_air_pressure_on_interface_levels := wb.press_int
    out_surface_air_pressure := wb.ps
    out_specific_humidity := inp.specific_humidity
    out_surface_geopotential := wb.topo
    out_atmosphere_relative_vorticity := wb.vorticity
    out_divergence_of_wind := wb.divergence
    out_mole_fraction_of_ozone_in_air := inp.mole_fraction_of_ozone_in_air
    out_mass_content_of_cloud_ice := inp.mass_content_of_cloud_ice
    out_mass_content_of_cloud_liquid_water :=
      inp.mass_content_of_cloud_liquid_water }

/-- The claim's reading of the inverse transform (C9): divide the post-step
virtual temperature by `1 + fvirt * q` with the POST-step humidity, i.e.
the humidity the kernel wrote back into tracer slot 0. -/
def air_temperature_out_claim9 (fvirt : ℚ) (wb : KernelGridRefs) : Arr3 :=
  fun i j k => t_from_virt fvirt (wb.t_virt i j k) (wb.tracers i j k 0)

/-! ## Theorems -/

/-- The field-by-field comparison done by `state_is_modified_externally` is
exactly inequality of the two signature records. -/
theorem state_sig_compare (a b : StateSig) :
    (a.hash_u ≠ b.hash_u ∨ a.hash_v ≠ b.hash_v ∨ a.hash_press ≠ b.hash_press ∨
      a.hash_surf_press ≠ b.hash_surf_press ∨ a.hash_temp ≠ b.hash_temp) ↔
      a ≠ b := by
  constructor
  · intro h heq
    subst heq
    rcases h with h | h | h | h | h <;> exact h rfl
  · intro h
    by_contra hc
    push_neg at hc
    obtain ⟨h1, h2, h3, h4, h5⟩ := hc
    cases a
    cases b
    simp_all

/-- **C1**: on each external-modification check, the five freshly computed
sample hashes are compared against the five stored hashes: the check
returns true exactly when some hash differs, in which case all five stored
hashes are overwritten with the fresh values; when all five agree it
returns false and the stored hashes are unchanged.  Moreover a step
instructs the kernel to resynchronize its spectral state (before stepping)
exactly when this check returned true. -/
theorem c1_signature_check (hashFn : List ℚ → Int)
    (samples : List (Nat × Nat × Nat)) (stored : StateSig)
    (u v temp press : Arr3) (ps : Arr2) (fvirt : ℚ) (plog : ℚ → ℚ)
    (kernel : Kernel) (inp : StepInput)
    (temp_tend q_tend u_tend v_tend : Arr3) (ps_tend : Arr2)
    (tracer_tend : Arr4) :
    (state_is_modified_externally hashFn samples stored u v temp press ps =
      (decide (calculate_state_signature hashFn samples u v temp press ps ≠ stored),
       if calculate_state_signature hashFn samples u v temp press ps = stored
       then stored
       else calculate_state_signature hashFn samples u v temp press ps)) ∧
    ((gfs_call fvirt plog hashFn samples kernel stored inp temp_tend q_tend
        u_tend v_tend ps_tend tracer_tend).did_resync =
      (state_is_modified_externally hashFn samples stored inp.eastward_wind
        inp.northward_wind inp.air_temperature inp.air_pressure
        inp.surface_air_pressure).1) := by
  constructor
  · unfold state_is_modified_externally
    by_cases h : calculate_state_signature hashFn samples u v temp press ps = stored
    · simp [h]
    · rw [if_pos ((state_sig_compare _ _).mpr h)]
      simp [h]
  · rfl

/-- **C2** counterexample: the claim would exclude `surface_geopotential`
from the outputs, but the declared output table does contain it. -/
theorem c2_counterexample :
    ¬ (("surface_geopotential" ∈ outputKeys) ↔
      ("surface_geopotential" ∈ inputKeys ∧
        "surface_geopotential" ∉ ["surface_geopotential",
          "atmosphere_relative_vorticity", "divergence_of_wind"])) := by
  decide

/-- **C2** (amended): the declared output quantity table equals the
declared input quantity table minus only the `gfs_tracers` bundle field;
surface geopotential, relative vorticity and divergence of wind ARE
re-exported. -/
theorem c2_outputs_amended (name : String) :
    name ∈ outputKeys ↔ (name ∈ inputKeys ∧ name ≠ "gfs_tracers") := by
  have hperm : outputKeys.Perm
      (inputKeys.filter (fun s => decide (s ≠ "gfs_tracers"))) := by
    decide
  rw [hperm.mem_iff, List.mem_filter]
  simp

/-- **C3**: the tracer bundle a step pushes to the kernel has, at every
grid point, slot 0 equal to the input state's specific humidity, slot 1 to
its ozone mixing ratio, slot 2 to its liquid cloud water and slot 3 to its
ice cloud water; the slot order is fixed by the assignments themselves (no
mapping iteration order is involved) and identical on every step. -/
theorem c3_tracer_slots (fvirt : ℚ) (plog : ℚ → ℚ) (inp : StepInput)
    (i j k : Nat) :
    (gfs_kernel_refs fvirt plog inp).tracers i j k 0 =
      inp.specific_humidity i j k ∧
    (gfs_kernel_refs fvirt plog inp).tracers i j k 1 =
      inp.mole_fraction_of_ozone_in_air i j k ∧
    (gfs_kernel_refs fvirt plog inp).tracers i j k 2 =
      inp.mass_content_of_cloud_liquid_water i j k ∧
    (gfs_kernel_refs fvirt plog inp).tracers i j k 3 =
      inp.mass_content_of_cloud_ice i j k :=
  ⟨rfl, rfl, rfl, rfl⟩

/-- `int()` of an exact integer value is that integer. -/
theorem py_int_intCast (z : Int) : py_int (z : ℚ) = z := by
  unfold py_int
  by_cases h : (0 : ℚ) ≤ (z : ℚ)
  · rw [if_pos h, Int.floor_intCast]
  · rw [if_neg h, ← Int.cast_neg, Int.floor_intCast, neg_neg]

/-- `int()` agrees with the floor on nonnegative values. -/
theorem py_int_nonneg (q : ℚ) (h : 0 ≤ q) : py_int q = ⌊q⌋ :=
  if_pos h

/-- **C4** counterexample: the constructor accepts 94 latitudes, 4
longitudes, 28 levels, 0 extra tracers and 0 damped levels (every assert
passes and the level count is the supported one), yet `int(4/3 - 2)`
truncates toward zero and yields truncation `0`, while the claimed formula
`floor(4/3) - 2` yields `-1`. -/
theorem c4_counterexample :
    (sanity_checks 0 28 94 4 0 && levels_supported 28) = true ∧
    truncation 4 = 0 ∧ ⌊(4 : ℚ) / 3⌋ - 2 = -1 := by
  refine ⟨by decide, ?_, ?_⟩
  · have h4 : ((4 : Int) : ℚ) / 3 - 2 = -2 / 3 := by norm_num
    have hfloor : ⌊(2 : ℚ) / 3⌋ = 0 := by
      rw [Int.floor_eq_iff]
      norm_num
    rw [truncation, h4]
    unfold py_int
    rw [if_neg (by norm_num)]
    rw [show -(-2 / 3 : ℚ) = 2 / 3 by norm_num, hfloor, neg_zero]
  · have hfloor : ⌊(4 : ℚ) / 3⌋ = 1 := by
      rw [Int.floor_eq_iff]
      norm_num
    rw [hfloor]
    norm_num

/-- **C4** (amended): for every constructor input accepted without error
whose longitude count is at least 6 (so that `num_lons/3 - 2` is
nonnegative and `int()` truncation agrees with the floor), the derived
values satisfy `truncation = floor(longitude_count/3) - 2`,
`spectral_dimension = (truncation+1)(truncation+2)/2` (exactly) and
`tracer_count = extra_tracers + 4`; in particular 198 longitudes yield
truncation 64 and spectral dimension 2145.  For longitude counts below 6
the code truncates `num_lons/3 - 2` toward zero instead of flooring. -/
theorem c4_derived_values (number_of_tracers number_of_levels
    number_of_latitudes number_of_longitudes number_of_damped_levels : Int)
    (hchecks : (sanity_checks number_of_tracers number_of_levels
      number_of_latitudes number_of_longitudes number_of_damped_levels &&
      levels_supported number_of_levels) = true)
    (hlons : 6 ≤ number_of_longitudes) :
    truncation number_of_longitudes = ⌊(number_of_longitudes : ℚ) / 3⌋ - 2 ∧
    (spectral_dim number_of_longitudes : ℚ) =
      ((truncation number_of_longitudes : ℚ) + 1) *
        ((truncation number_of_longitudes : ℚ) + 2) / 2 ∧
    num_tracers number_of_tracers = number_of_tracers + 4 ∧
    truncation 198 = 64 ∧ spectral_dim 198 = 2145 := by
  have htrunc198 : truncation 198 = 64 := by
    have h : ((198 : Int) : ℚ) / 3 - 2 = ((64 : Int) : ℚ) := by norm_num
    rw [truncation, h, py_int_intCast]
  refine ⟨?_, ?_, rfl, htrunc198, ?_⟩
  · have h6 : (6 : ℚ) ≤ (number_of_longitudes : ℚ) := by exact_mod_cast hlons
    have h0 : (0 : ℚ) ≤ (number_of_longitudes : ℚ) / 3 - 2 := by linarith
    rw [truncation, py_int_nonneg _ h0,
      show ((number_of_longitudes : ℚ) / 3 - 2 : ℚ) =
        (number_of_longitudes : ℚ) / 3 - ((2 : Int) : ℚ) by norm_num,
      Int.floor_sub_int]
  · set t := truncation number_of_longitudes with ht
    obtain ⟨k, hk⟩ : Even ((t + 1) * ((t + 1) + 1)) :=
      Int.even_mul_succ_self (t + 1)
    have hk2 : (t + 1) * (t + 2) = 2 * k := by linarith [hk]
    have hq : ((t : ℚ) + 1) * ((t : ℚ) + 2) / 2 = (k : ℚ) := by
      have hcast : ((t : ℚ) + 1) * ((t : ℚ) + 2) = 2 * (k : ℚ) := by
        exact_mod_cast congrArg (fun z : Int => (z : ℚ)) hk2
      linarith
    rw [spectral_dim, ← ht, hq, py_int_intCast]
  · have hsd : spectral_dim 198 = py_int (((65 : Int) : ℚ) * ((66 : Int) : ℚ) / 2) := by
      rw [spectral_dim, htrunc198]
      norm_num
    rw [hsd, show ((65 : Int) : ℚ) * ((66 : Int) : ℚ) / 2 = ((2145 : Int) : ℚ) by norm_num,
      py_int_intCast]

/-- Witness for the amended C4 at the reference resolution of the source
(0 extra tracers, 28 levels, 94 latitudes, 198 longitudes, 0 damped
levels). -/
theorem c4_derived_values_witness :
    truncation 198 = ⌊(198 : ℚ) / 3⌋ - 2 ∧
    (spectral_dim 198 : ℚ) =
      ((truncation 198 : ℚ) + 1) * ((truncation 198 : ℚ) + 2) / 2 ∧
    num_tracers 0 = 0 + 4 ∧
    truncation 198 = 64 ∧ spectral_dim 198 = 2145 :=
  c4_derived_values 0 28 94 198 0 (by decide) (by norm_num)

/-- **C5**: the tendency assembler returns exactly one array per requested
name in request order when every name is available — the tendency entry
(its values preserved under the Fortran-order reformat) when present,
otherwise an all-zero array of exactly the state entry's shape — and when
some requested name is absent from both mappings it returns no arrays at
all, failing with a lookup error whose message names the (first) missing
quantity.  The trailing conjunct records that the substituted zero array's
shape is exactly the requested one and its entries are all zero. -/
theorem c5_tendency_assembly (quantity_list : List String)
    (state tendencies : List (String × NDArray)) :
    (match quantity_list.find?
        (fun q => !(tendency_available state tendencies q)) with
     | none =>
       return_tendency_arrays_or_zeros quantity_list state tendencies =
         .ok (quantity_list.map (tendency_or_zeros state tendencies))
     | some q =>
       return_tendency_arrays_or_zeros quantity_list state tendencies =
         .error (q ++ " not found in input state or tendencies")) ∧
    (∀ shape, (np_zeros shape).shape = shape ∧
      ∀ x ∈ (np_zeros shape).data, x = 0) := by
  constructor
  · induction quantity_list with
    | nil => simp [return_tendency_arrays_or_zeros]
    | cons q rest ih =>
      rcases htl : tendencies.lookup q with _ | arr
      · rcases hsl : state.lookup q with _ | arr
        · have hav : tendency_available state tendencies q = false := by
            simp [tendency_available, htl, hsl]
          simp [List.find?_cons, hav, return_tendency_arrays_or_zeros, htl, hsl]
        · have hav : tendency_available state tendencies q = true := by
            simp [tendency_available, htl, hsl]
          rcases hfr : rest.find?
              (fun q => !(tendency_available state tendencies q)) with _ | q2
          · rw [hfr] at ih
            simp [List.find?_cons, hav, hfr, return_tendency_arrays_or_zeros,
              htl, hsl, ih, tendency_or_zeros, Except.map]
          · rw [hfr] at ih
            simp [List.find?_cons, hav, hfr, return_tendency_arrays_or_zeros,
              htl, hsl, ih, Except.map]
      · have hav : tendency_available state tendencies q = true := by
          simp [tendency_available, htl]
        rcases hfr : rest.find?
            (fun q => !(tendency_available state tendencies q)) with _ | q2
        · rw [hfr] at ih
          simp [List.find?_cons, hav, hfr, return_tendency_arrays_or_zeros,
            htl, ih, tendency_or_zeros, Except.map]
        · rw [hfr] at ih
          simp [List.find?_cons, hav, hfr, return_tendency_arrays_or_zeros,
            htl, ih, Except.map]
  · intro shape
    refine ⟨rfl, ?_⟩
    intro x hx
    exact List.eq_of_mem_replicate hx

/-- Witness for C5: three requested quantities, one found in tendencies,
one found only in state, one missing from both — the call fails naming the
missing quantity. -/
theorem c5_tendency_assembly_witness :
    return_tendency_arrays_or_zeros
      ["air_temperature", "specific_humidity", "eastward_wind"]
      [("air_temperature", ⟨[2], [0, 0]⟩)]
      [("specific_humidity", ⟨[2], [3, 4]⟩)] =
      .error "eastward_wind not found in input state or tendencies" :=
  (c5_tendency_assembly
    ["air_temperature", "specific_humidity", "eastward_wind"]
    [("air_temperature", ⟨[2], [0, 0]⟩)]
    [("specific_humidity", ⟨[2], [3, 4]⟩)]).1

/-- **C6**: applying the forward virtual-temperature transform and then
the inverse transform with the same humidity returns the original
temperature whenever `1 + fvirt*q` is nonzero; and `1 + fvirt*q` is indeed
nonzero for every humidity `q ∈ [0, 1)` when `fvirt` is derived as
`(1 - Rd/Rv)/(Rd/Rv)` from positive gas constants. -/
theorem c6_virtual_temperature_roundtrip (fvirt T q Rd Rv : ℚ) :
    (1 + fvirt * q ≠ 0 →
      t_from_virt fvirt (t_virt_of fvirt T q) q = T) ∧
    (0 < Rd → 0 < Rv → 0 ≤ q → q < 1 → 1 + fvirt_of Rd Rv * q ≠ 0) := by
  constructor
  · intro h
    unfold t_from_virt t_virt_of
    rw [mul_div_assoc, div_self h, mul_one]
  · intro hRd hRv hq0 hq1
    have hr : 0 < Rd / Rv := div_pos hRd hRv
    have hfgt : (-1 : ℚ) < fvirt_of Rd Rv := by
      unfold fvirt_of
      rw [lt_div_iff₀ hr]
      linarith
    have hpos : 0 < 1 + fvirt_of Rd Rv * q := by
      nlinarith [mul_nonneg hq0 (le_of_lt (by linarith : (0:ℚ) < 1 + fvirt_of Rd Rv))]
    exact ne_of_gt hpos

/-- Witness for C6 at `Rd = 1`, `Rv = 2` (so `fvirt = 1`), `T = 300`,
`q = 1/100`. -/
theorem c6_virtual_temperature_roundtrip_witness :
    t_from_virt (fvirt_of 1 2) (t_virt_of (fvirt_of 1 2) 300 (1/100)) (1/100) =
      300 ∧
    1 + fvirt_of 1 2 * (1/100) ≠ 0 :=
  ⟨(c6_virtual_temperature_roundtrip (fvirt_of 1 2) 300 (1/100) 1 2).1
      (by norm_num [fvirt_of]),
   (c6_virtual_temperature_roundtrip (fvirt_of 1 2) 300 (1/100) 1 2).2
      (by norm_num) (by norm_num) (by norm_num) (by norm_num)⟩

/-- **C7**: the throttled step operation recomputes on its first call (no
prior cache); on any later call it recomputes if and only if the state's
time has advanced to at least the last recomputation time plus the
configured interval, and otherwise returns the cached output with nothing
changed; and over states at times `t0`, `t0 + Δ/2`, `t0 + Δ` with interval
`Δ > 0` exactly two recomputations occur and the middle call returns the
output cached at `t0`. -/
theorem c7_update_throttle {σ β : Type} (original_call : σ → β)
    (update_timedelta : ℚ) (timeOf : σ → ℚ) (s : σ) (t : ℚ)
    (cached : Option β) (orig2 : ℚ → β) (t0 Δ : ℚ) (hΔ : 0 < Δ) :
    (throttled_call original_call update_timedelta timeOf ⟨none, none⟩ s =
      (some (original_call s), ⟨some (timeOf s), some (original_call s)⟩,
        true)) ∧
    (throttled_call original_call update_timedelta timeOf ⟨some t, cached⟩ s =
      if timeOf s ≥ t + update_timedelta then
        (some (original_call s), ⟨some (timeOf s), some (original_call s)⟩,
          true)
      else (cached, ⟨some t, cached⟩, false)) ∧
    (throttle_run orig2 Δ id ⟨none, none⟩ [t0, t0 + Δ/2, t0 + Δ] =
      ([some (orig2 t0), some (orig2 t0), some (orig2 (t0 + Δ))], 2)) := by
  refine ⟨rfl, rfl, ?_⟩
  · have h2 : ¬ (t0 + Δ/2 ≥ t0 + Δ) := by linarith
    simp [throttle_run, throttled_call, h2]

/-- Witness for C7: interval 1, times 0, 1/2, 1. -/
theorem c7_update_throttle_witness :
    throttle_run (fun u : ℚ => u + 100) 1 id ⟨none, none⟩ [0, 1/2, 1] =
      ([some 100, some 100, some 101], 2) := by
  have h := (c7_update_throttle (fun u : ℚ => u + 100) 1 id 0 0 none
    (fun u : ℚ => u + 100) 0 1 (by norm_num)).2.2
  norm_num at h
  exact h

/-- **C8**: `ensure_shared_coordinates` is called with keyword arguments,
so its `args` dictionary has only string keys; `args[0]` then always raises
`KeyError` — the check never returns successfully, not even when every
argument shares identical axis names and coordinate values.  (This
contradicts the function's own docstring, which promises an
`InvalidStateException` only when the arrays do NOT share coordinates.) -/
theorem c8_coordinate_check_key_error (args : List (PyKey × DataArr))
    (hkw : ∀ e ∈ args, ∃ s, e.fst = PyKey.str s) :
    ensure_shared_coordinates args = .error .keyError := by
  have hnone : dictGet args (PyKey.int 0) = none := by
    unfold dictGet
    have h1 : List.find? (fun e => decide (e.fst = PyKey.int 0)) args = none := by
      rw [List.find?_eq_none]
      intro e he
      obtain ⟨s, hs⟩ := hkw e he
      simp [hs]
    rw [h1]
    rfl
  unfold ensure_shared_coordinates
  rw [hnone]

/-- Witness for C8: two keyword arguments holding the very same labeled
array (identical dims and coordinates) still produce `KeyError`. -/
theorem c8_coordinate_check_key_error_witness :
    ensure_shared_coordinates
      [(PyKey.str "a", ⟨["x"], fun _ => [1, 2]⟩),
       (PyKey.str "b", ⟨["x"], fun _ => [1, 2]⟩)] = .error .keyError :=
  c8_coordinate_check_key_error _ (by
    intro e he
    simp only [List.mem_cons, List.not_mem_nil, or_false] at he
    rcases he with rfl | rfl
    · exact ⟨"a", rfl⟩
    · exact ⟨"b", rfl⟩)

/-- The all-zero step input used for the C9 counterexample: in particular
its specific humidity is 0 everywhere. -/
def cex_inp : StepInput :=
  { eastward_wind := fun _ _ _ => 0
    northward_wind := fun _ _ _ => 0
    air_temperature := fun _ _ _ => 0
    surface_air_pressure := fun _ _ => 1
    air_pressure := fun _ _ _ => 0
    air_pressure_on_interface_levels := fun _ _ _ => 0
    specific_humidity := fun _ _ _ => 0
    surface_geopotential := fun _ _ => 0
    atmosphere_relative_vorticity := fun _ _ _ => 0
    divergence_of_wind := fun _ _ _ => 0
    mole_fraction_of_ozone_in_air := fun _ _ _ => 0
    mass_content_of_cloud_ice := fun _ _ _ => 0
    mass_content_of_cloud_liquid_water := fun _ _ _ => 0
    gfs_tracers := fun _ _ _ _ => 0 }

/-- A kernel writeback for the C9 counterexample: the advance leaves
virtual temperature 6 everywhere and post-step humidity (tracer slot 0)
2 everywhere. -/
def cex_wb : KernelGridRefs :=
  { u := fun _ _ _ => 0
    v := fun _ _ _ => 0
    t_virt := fun _ _ _ => 6
    lnsp := fun _ _ => 0
    tracers := fun _ _ _ _ => 2
    vorticity := fun _ _ _ => 0
    divergence := fun _ _ _ => 0
    ps := fun _ _ => 1
    press := fun _ _ _ => 0
    press_int := fun _ _ _ => 0
    topo := fun _ _ => 0 }

/-- The constant kernel realizing `cex_wb`. -/
def cex_kernel : Kernel := fun _ _ _ => cex_wb

/-- Like `cex_wb` but with a different post-step humidity (tracer slot 0
is 5): used to show the returned temperature ignores the post-step
humidity. -/
def cex_wb2 : KernelGridRefs :=
  { cex_wb with tracers := fun _ _ _ _ => 5 }

/-- The constant kernel realizing `cex_wb2`. -/
def cex_kernel2 : Kernel := fun _ _ _ => cex_wb2

/-- **C9** counterexample: with zero pre-step humidity, a kernel whose
advance writes back virtual temperature 6 and post-step humidity 2, the
step returns air temperature `6 / (1 + fvirt·0) = 6` at grid point
(0,0,0), while the claimed post-step-humidity inversion would give
`6 / (1 + fvirt·2) = 2` (with `fvirt = 1`). -/
theorem c9_counterexample :
    (gfs_writeback 1 (fun x => x) (fun _ => 0) [] cex_kernel
        ⟨1000, 1000, 1000, 1000, 1000⟩ cex_inp
        (gfs_pushed_tendencies 1 cex_inp (fun _ _ _ => 0) (fun _ _ _ => 0)
          (fun _ _ _ => 0) (fun _ _ _ => 0) (fun _ _ => 0)
          (fun _ _ _ _ => 0)) = cex_wb) ∧
    (gfs_call 1 (fun x => x) (fun _ => 0) [] cex_kernel
        ⟨1000, 1000, 1000, 1000, 1000⟩ cex_inp (fun _ _ _ => 0)
        (fun _ _ _ => 0) (fun _ _ _ => 0) (fun _ _ _ => 0) (fun _ _ => 0)
        (fun _ _ _ _ => 0)).out_air_temperature 0 0 0 = 6 ∧
    air_temperature_out_claim9 1 cex_wb 0 0 0 = 2 ∧ (6 : ℚ) ≠ 2 := by
  refine ⟨rfl, ?_, ?_, by norm_num⟩
  · show t_from_virt 1 (cex_wb.t_virt 0 0 0) (cex_inp.specific_humidity 0 0 0) = 6
    norm_num [t_from_virt, cex_wb, cex_inp]
  · norm_num [air_temperature_out_claim9, t_from_virt, cex_wb]

/-- **C9** (amended): the inverse virtual-temperature transform that
produces the returned air temperature divides by `1 + fvirt*q` with the
PRE-step specific humidity — the humidity extracted from the input state,
whose buffer is never handed to the kernel (only its values, copied into
tracer slot 0, are) — not the humidity updated by the kernel's advance.
Consequently the returned temperature is unchanged under any change of the
kernel's tracer (humidity) writeback that keeps the virtual-temperature
writeback fixed. -/
theorem c9_pre_step_humidity (fvirt : ℚ) (plog : ℚ → ℚ)
    (hashFn : List ℚ → Int) (samples : List (Nat × Nat × Nat))
    (kernel kernel2 : Kernel) (stored : StateSig) (inp : StepInput)
    (temp_tend q_tend u_tend v_tend : Arr3) (ps_tend : Arr2)
    (tracer_tend : Arr4) (i j k : Nat) :
    ((gfs_call fvirt plog hashFn samples kernel stored inp temp_tend q_tend
        u_tend v_tend ps_tend tracer_tend).out_air_temperature i j k =
      t_from_virt fvirt
        ((gfs_writeback fvirt plog hashFn samples kernel stored inp
            (gfs_pushed_tendencies fvirt inp temp_tend q_tend u_tend v_tend
              ps_tend tracer_tend)).t_virt i j k)
        (inp.specific_humidity i j k)) ∧
    ((∀ a b c, (gfs_writeback fvirt plog hashFn samples kernel2 stored inp
          (gfs_pushed_tendencies fvirt inp temp_tend q_tend u_tend v_tend
            ps_tend tracer_tend)).t_virt a b c =
        (gfs_writeback fvirt plog hashFn samples kernel stored inp
          (gfs_pushed_tendencies fvirt inp temp_tend q_tend u_tend v_tend
            ps_tend tracer_tend)).t_virt a b c) →
      (gfs_call fvirt plog hashFn samples kernel2 stored inp temp_tend
        q_tend u_tend v_tend ps_tend tracer_tend).out_air_temperature i j k =
      (gfs_call fvirt plog hashFn samples kernel stored inp temp_tend
        q_tend u_tend v_tend ps_tend tracer_tend).out_air_temperature i j k) := by
  constructor
  · rfl
  · intro hagree
    exact congrArg
      (fun x => t_from_virt fvirt x (inp.specific_humidity i j k))
      (hagree i j k)

/-- Witness for the amended C9: two kernels agreeing on the
virtual-temperature writeback but disagreeing on the post-step humidity
(tracer slot 0 equal to 2 versus 5) give identical returned
temperatures. -/
theorem c9_pre_step_humidity_witness :
    (gfs_call 1 (fun x => x) (fun _ => 0) [] cex_kernel2
        ⟨1000, 1000, 1000, 1000, 1000⟩ cex_inp (fun _ _ _ => 0)
        (fun _ _ _ => 0) (fun _ _ _ => 0) (fun _ _ _ => 0) (fun _ _ => 0)
        (fun _ _ _ _ => 0)).out_air_temperature 0 0 0 =
      (gfs_call 1 (fun x => x) (fun _ => 0) [] cex_kernel
        ⟨1000, 1000, 1000, 1000, 1000⟩ cex_inp (fun _ _ _ => 0)
        (fun _ _ _ => 0) (fun _ _ _ => 0) (fun _ _ _ => 0) (fun _ _ => 0)
        (fun _ _ _ _ => 0)).out_air_temperature 0 0 0 :=
  (c9_pre_step_humidity 1 (fun x => x) (fun _ => 0) [] cex_kernel
    cex_kernel2 ⟨1000, 1000, 1000, 1000, 1000⟩ cex_inp (fun _ _ _ => 0)
    (fun _ _ _ => 0) (fun _ _ _ => 0) (fun _ _ _ => 0) (fun _ _ => 0)
    (fun _ _ _ _ => 0) 0 0 0).2 (fun _ _ _ => rfl)

/-- **C10**: the 1D-to-3D broadcast helper returns every 3D input
unchanged; it errors exactly when the rank is neither 1 nor 3 or when a 1D
input comes with a position outside 1..3; and a 1D input of length `n`
with position `p ∈ 1..3` becomes a 3D array with extent `n` at (1-based)
axis `p` and extent 1 at the other two axes, its data untouched. -/
theorem c10_ensure_3d (a : NDArray) (p : Int) :
    (a.shape.length = 3 → ensure_3d a p = .ok a) ∧
    (exceptIsOk (ensure_3d a p) = false ↔
      ((a.shape.length ≠ 1 ∧ a.shape.length ≠ 3) ∨
        (a.shape.length = 1 ∧ p ≠ 1 ∧ p ≠ 2 ∧ p ≠ 3))) ∧
    (∀ n, a.shape = [n] →
      (p = 1 → ensure_3d a p = .ok ⟨[n, 1, 1], a.data⟩) ∧
      (p = 2 → ensure_3d a p = .ok ⟨[1, n, 1], a.data⟩) ∧
      (p = 3 → ensure_3d a p = .ok ⟨[1, 1, n], a.data⟩)) := by
  by_cases h3 : a.shape.length = 3
  · refine ⟨fun _ => by simp [ensure_3d, h3], ?_, ?_⟩
    · simp [ensure_3d, h3, exceptIsOk]
    · intro n hn
      rw [hn] at h3
      simp at h3
  · by_cases h1 : a.shape.length = 1
    · refine ⟨fun hc => absurd hc h3, ?_, ?_⟩
      · by_cases hp1 : p = 1
        · simp [ensure_3d, h3, h1, hp1, exceptIsOk]
        · by_cases hp2 : p = 2
          · simp [ensure_3d, h3, h1, hp1, hp2, exceptIsOk]
          · by_cases hp3 : p = 3
            · simp [ensure_3d, h3, h1, hp1, hp2, hp3, exceptIsOk]
            · simp [ensure_3d, h3, h1, hp1, hp2, hp3, exceptIsOk]
      · intro n hn
        refine ⟨?_, ?_, ?_⟩ <;> intro hp <;>
          simp [ensure_3d, hn, hp, List.headI]
    · refine ⟨fun hc => absurd hc h3, ?_, ?_⟩
      · simp [ensure_3d, h3, h1, exceptIsOk]
      · intro n hn
        rw [hn] at h1
        simp at h1

/-- Witness for C10: a 1D array of length 5 broadcast at position 2. -/
theorem c10_ensure_3d_witness :
    ensure_3d ⟨[5], [1, 2, 3, 4, 5]⟩ 2 = .ok ⟨[1, 5, 1], [1, 2, 3, 4, 5]⟩ :=
  ((c10_ensure_3d ⟨[5], [1, 2, 3, 4, 5]⟩ 2).2.2 5 rfl).2.1 rfl

end Climt
